import Mathlib

/-!
Verification of the fasthtml_otel span-streaming core: a shallow embedding of
`renderers.py`, `processors.py` and `streamer.py` (the renderer strategies,
the two span processors, and the SSE consumer loop), together with theorems
settling the specified behavioural properties.

Modelling conventions:
* Python exceptions are modelled with `Except String`; a `try/except` block
  becomes a `match` on the `Except` value.  Where an exception escapes a block
  after side effects on the patch queue, the error value carries the state at
  the raise point.
* OpenTelemetry span ids are `Nat`; Python truthiness of an optional id
  (`if parent_id:`) is `none` ↦ false, `some 0` ↦ false, `some (n+1)` ↦ true.
* Rendered fasthtml components (`Div`, `Span`, `Ul`, `Li`, `Input`, `Label`)
  are modelled as an `Html` tree; serialization (`to_xml`) is the external
  markup system and is out of scope, so queued patches keep the wrapper
  structure (swap kind, target id, payload fragment).
* Logging (`logger.warning` / `logger.exception`) is modelled as a list of
  log strings returned alongside the result.
-/

/-- A rendered fragment: fasthtml component trees (`Div`, `Span`, ...).
The element carries the tag, the keyword attributes as (key, value) pairs in
source order, and the child fragments. -/
inductive Html where
  | el : String → List (String × String) → List Html → Html
  | text : String → Html

/-- `opentelemetry.trace.SpanContext` restricted to the fields the code
reads: `span_id`, `trace_id` and the derived `is_valid` flag. -/
structure SpanContext where
  trace_id : Nat
  span_id : Nat
deriving Repr, DecidableEq

/-- `SpanContext.is_valid`: both ids nonzero (OpenTelemetry definition). -/
def SpanContext.isValid (c : SpanContext) : Bool :=
  c.trace_id != 0 && c.span_id != 0

/-- A span event: `name` and `timestamp` (the fields `render_events` reads). -/
structure MEvent where
  name : String
  timestamp : Nat
deriving Repr, DecidableEq

/-- `ReadableSpan` restricted to the fields the code reads: `context.span_id`,
`name`, `parent` (an optional `SpanContext`), `attributes` (as an ordered
key/value list, matching `dict.items()` order), `events`, `status.status_code`
(the status name, absent when falsy) and start/end times in nanoseconds. -/
structure MSpan where
  span_id : Nat
  name : String
  parent : Option SpanContext
  attributes : List (String × String)
  events : List MEvent
  statusCode : Option String
  startTime : Option Nat
  endTime : Option Nat
deriving Repr, DecidableEq

/-- The span yielded by `trace.get_current_span(parent_context)`: the code
reads `is_recording()` and `get_span_context()`. -/
structure CtxSpan where
  isRecording : Bool
  spanContext : SpanContext
deriving Repr, DecidableEq

/-- Python truthiness of the optional `parent_id` integer:
`None` and `0` are falsy. -/
def optTruthy : Option Nat → Bool
  | none => false
  | some n => n != 0

/-- Whether `needle` is a prefix of `hay` (on character lists). -/
def charsStartWith : List Char → List Char → Bool
  | [], _ => true
  | _ :: _, [] => false
  | a :: as, b :: bs => a == b && charsStartWith as bs

/-- Whether `needle` occurs as a contiguous sublist of `hay`. -/
def charsContain (needle hay : List Char) : Bool :=
  match hay with
  | [] => needle.isEmpty
  | _ :: rest => charsStartWith needle hay || charsContain needle rest

/-- Python `s.lower()` as a character list (`str.lower` per character;
coincides with `Char.toLower` on the ASCII span names involved). -/
def pyLower (s : String) : List Char :=
  s.toList.map Char.toLower

/-- Python `needle.lower() in hay.lower()` (case-insensitive substring
containment). -/
def pyInLower (needle hay : String) : Bool :=
  charsContain (pyLower needle) (pyLower hay)

/-- `DefaultSpanRenderer.status_colors`. -/
def status_colors : List (String × String) :=
  [("OK", "text-success"), ("ERROR", "text-error"), ("UNSET", "text-warning")]

/-- `span.status.status_code.name if span.status.status_code else "UNSET"`. -/
def statusName (span : MSpan) : String :=
  match span.statusCode with
  | some n => n
  | none => "UNSET"

/-- Duration text of `DefaultSpanRenderer.render_header`: `"..."` while the
span is running, else `(end - start) / 1e6` milliseconds rendered with one
decimal (Python float formatting modelled by integer arithmetic on the
nanosecond difference). -/
def durationText (span : MSpan) : String :=
  match span.endTime, span.startTime with
  | some e, some s =>
      let ns := e - s
      s!"{ns / 1000000}.{ns / 100000 % 10} ms"
  | _, _ => "..."

/-- `DefaultSpanRenderer.render_header`. -/
def default_render_header (span : MSpan) : Html :=
  let status_name := statusName span
  let color := ((status_colors.lookup status_name).getD "text-neutral")
  .el "div"
    [("id", s!"span-header-{span.span_id}"),
     ("cls", "flex justify-between items-center")]
    [.el "span" [("cls", s!"font-semibold {color}")] [.text span.name],
     .el "span" [("cls", "text-xs opacity-70 ml-1")] [.text s!" â€¢ {status_name}"],
     .el "span" [("cls", "ml-auto text-xs text-neutral-content/60")] [.text (durationText span)]]

/-- One `Li` row of `DefaultSpanRenderer.render_attributes`. -/
def attrRow (kv : String × String) : Html :=
  .el "li" [("cls", "flex text-xs py-[1px]")]
    [.el "span" [("cls", "text-neutral-content/70 mr-1")] [.text kv.1],
     .el "span" [("cls", "font-mono text-xs text-base-content/80 break-all")] [.text kv.2]]

/-- `DefaultSpanRenderer.render_attributes`: empty `Div` when the attribute
mapping is falsy (empty), else a `Ul` of key/value rows. -/
def default_render_attributes (span : MSpan) : Html :=
  if span.attributes.isEmpty then .el "div" [] []
  else
    .el "ul"
      [("cls", "pl-1 space-y-[1px]"), ("id", s!"span-attributes-{span.span_id}")]
      (span.attributes.map attrRow)

/-- One event row of `DefaultSpanRenderer.render_events`. -/
def eventRow (ev : MEvent) : Html :=
  .el "div" [("cls", "border-l-2 border-info pl-2 py-1")]
    [.el "span" [("cls", "font-medium text-xs")] [.text ev.name],
     .el "span" [("cls", "text-xs opacity-60")] [.text s!" @ {ev.timestamp}"]]

/-- `DefaultSpanRenderer.render_events`: empty `Div` when there are no
events, else a `Div` of timestamped rows. -/
def default_render_events (span : MSpan) : Html :=
  if span.events.isEmpty then .el "div" [] []
  else
    .el "div"
      [("cls", "space-y-1"), ("id", s!"span-events-{span.span_id}")]
      (span.events.map eventRow)

/-- The `for pattern in self.auto_expand_patterns:` loop of
`render_complete_span`: starting from `should_expand = is_root`, set it to
`True` and break on the first pattern whose lowercase form occurs in the
lowercase span name. -/
def shouldExpandLoop (init : Bool) (patterns : List String) (name : String) : Bool :=
  match patterns with
  | [] => init
  | p :: ps => if pyInLower p name then true else shouldExpandLoop init ps name

/-- `DefaultSpanRenderer.render_complete_span`, parameterized by the
renderer's `auto_expand_patterns`.  The `checked` keyword of the fasthtml
`Input` is a boolean attribute: present exactly when `should_expand`. -/
def default_render_complete_span (auto_expand_patterns : List String)
    (span : MSpan) (children_container_id : String) (is_root : Bool) : Html :=
  let span_id := span.span_id
  let children_container : Html :=
    .el "div" [("cls", "pl-4 space-y-1 border-l border-base-300"),
               ("id", children_container_id)] []
  let details_id := s!"span-details-{span_id}"
  let details_content : Html :=
    .el "div" [("id", details_id), ("cls", "collapse-content pl-4 space-y-2")]
      [default_render_attributes span, default_render_events span]
  let should_expand := shouldExpandLoop is_root auto_expand_patterns span.name
  let checkbox_id := s!"span-checkbox-{span_id}"
  let collapse_wrapper : Html :=
    .el "div" [("cls", "collapse collapse-arrow bg-base-100 border border-base-300 rounded-lg my-1")]
      [.el "input"
        ([("type", "checkbox"), ("cls", "collapse-checkbox")]
          ++ (if should_expand then [("checked", "")] else [])
          ++ [("id", checkbox_id)]) [],
       .el "label"
        [("for_", checkbox_id),
         ("cls", "collapse-title text-sm font-medium p-2 hover:bg-base-200 transition-colors cursor-pointer")]
        [default_render_header span],
       details_content]
  .el "div" [("id", s!"span-{span_id}"), ("cls", "my-1")]
    [collapse_wrapper, children_container]

mutual
/-- The initial expanded/collapsed state encoded in a rendered fragment:
whether the fragment contains a checked `input` element (the collapse
checkbox). -/
def hasCheckedInput : Html → Bool
  | .text _ => false
  | .el t attrs cs =>
      (t == "input" && attrs.any (fun kv => kv.1 == "checked")) || hasCheckedList cs

/-- `hasCheckedInput` over a child list. -/
def hasCheckedList : List Html → Bool
  | [] => false
  | c :: cs => hasCheckedInput c || hasCheckedList cs
end

/-- A renderer strategy (`SpanRenderer` subclass) as the processors see it:
`can_render` plus the four render operations.  Each call may raise a Python
exception, modelled as `Except String`. -/
structure Renderer where
  can_render : MSpan → Except String Bool
  render_header : MSpan → Except String Html
  render_attributes : MSpan → Except String Html
  render_events : MSpan → Except String Html
  render_complete_span : MSpan → String → Bool → Except String Html

/-- `DefaultSpanRenderer` (with the given `auto_expand_patterns`) lifted to
the strategy interface; none of its methods raises, and the inherited
`SpanRenderer.can_render` always returns `True`. -/
def defaultSpanRenderer (auto_expand_patterns : List String) : Renderer where
  can_render := fun _ => .ok true
  render_header := fun s => .ok (default_render_header s)
  render_attributes := fun s => .ok (default_render_attributes s)
  render_events := fun s => .ok (default_render_events s)
  render_complete_span := fun s cid root =>
    .ok (default_render_complete_span auto_expand_patterns s cid root)

/-- Whether `renderer.can_render(span)` returns normally with `True`. -/
def canRenderOk (r : Renderer) (span : MSpan) : Bool :=
  match r.can_render span with
  | .ok true => true
  | .ok false => false
  | .error _ => false

/-- `ThreadSafeSpanProcessor._get_renderer_for_span`: try each registered
renderer in order, returning the first whose `can_render` returns `True`;
an exception from `can_render` is caught, logged, and the loop continues;
fall back to `self.renderer` when none matches. -/
def get_renderer_for_span (renderers : List Renderer) (fallback : Renderer)
    (span : MSpan) : Renderer :=
  match renderers with
  | [] => fallback
  | r :: rest =>
    match r.can_render span with
    | .ok true => r
    | .ok false => get_renderer_for_span rest fallback span
    | .error _ => get_renderer_for_span rest fallback span

/-- A queued patch: the HTMX out-of-band wrapper
`Div(payload, hx_swap_oob=swap, id=target)` that the processors serialize
with `to_xml` and enqueue.  `swap` is `"beforeend"` (append-child) or
`"innerHTML"` (replace-contents). -/
structure MPatch where
  swap : String
  target : String
  payload : Html

/-- Python dict assignment `m[k] = v` on an association list. -/
def dictSet (k : Nat) (v : α) : List (Nat × α) → List (Nat × α)
  | [] => [(k, v)]
  | (k₂, v₂) :: rest => if k₂ = k then (k, v) :: rest else (k₂, v₂) :: dictSet k v rest

/-- The context arm of parent-id resolution in the start handlers
(`_handle_start` / `FastHTMLSpanProcessor.on_start`): the parent id taken
from `trace.get_current_span(parent_context)` when that span is recording
and carries a valid span context.  `parentContext = none` covers both
`parent_context is None` and a falsy (empty) context, in which case
`get_current_span` yields nothing usable. -/
def ctx_resolved (parentContext : Option CtxSpan) : Option Nat :=
  match parentContext with
  | some c =>
      if c.isRecording && c.spanContext.isValid then some c.spanContext.span_id
      else none
  | none => none

/-- The full parent resolution: context first, `span.parent` as fallback. -/
def resolveParentId (parentContext : Option CtxSpan) (span : MSpan) : Option Nat :=
  match ctx_resolved parentContext with
  | some pid => some pid
  | none =>
    match span.parent with
    | some p => some p.span_id
    | none => none

/-- Placement computed by both start handlers from the resolved parent id:
`(parent_id, target_id, is_root)` where
`target_id = f"span-children-{parent_id}" if parent_id else container_id`
and `is_root = parent_id is None`. -/
def startPlacement (container_id : String) (parentContext : Option CtxSpan)
    (span : MSpan) : Option Nat × String × Bool :=
  let parent_id := resolveParentId parentContext span
  let target_id :=
    if optTruthy parent_id then s!"span-children-{(parent_id.getD 0)}" else container_id
  (parent_id, target_id, parent_id.isNone)

/-- The queue discipline of `ThreadSafeSpanProcessor`: a `queue.Queue`, an
`asyncio.Queue`, or an unsupported type. -/
inductive QueueKind where
  | sync
  | async
  | other
deriving Repr, DecidableEq

/-- `ThreadSafeSpanProcessor` state: the configured root container id, the
queue discipline, the fallback `self.renderer`, the registered
`self.renderers` list, and the two tracking maps. -/
structure TSState where
  container_id : String
  queueKind : QueueKind
  renderer : Renderer
  renderers : List Renderer
  spans : List (Nat × MSpan)
  parent_child_map : List (Nat × Nat)

/-- `ThreadSafeSpanProcessor._put_in_queue`: enqueue on the sync queue with
`put_nowait`; schedule `queue.put` as a task on the running loop for the
async queue, logging a warning when no loop runs (`loopRunning = false`);
log an error for an unsupported queue type.  Its own `try/except` means it
never raises.  Returns the queue contents and the log lines emitted. -/
def put_in_queue (kind : QueueKind) (loopRunning : Bool)
    (q : List MPatch) (p : MPatch) : List MPatch × List String :=
  match kind with
  | .async =>
      if loopRunning then (q ++ [p], [])
      else (q, ["No event loop running for asyncio.Queue"])
  | .sync => (q ++ [p], [])
  | .other => (q, ["Unsupported queue type"])

/-- Result of a callback body: the processor state, the queue contents, and
the log lines emitted so far. -/
structure CbOut (σ : Type) where
  state : σ
  queue : List MPatch
  logs : List String

/-- The `try:` block of `ThreadSafeSpanProcessor._handle_start`.  An escaping
exception (only a raising `render_complete_span` can escape) carries the
state at the raise point together with the message, matching Python control
flow where the tracking maps were already updated. -/
def ts_handle_start_body (st : TSState) (loopRunning : Bool) (q : List MPatch)
    (span : MSpan) (parent_context : Option CtxSpan) :
    Except (CbOut TSState × String) (CbOut TSState) :=
  let span_id := span.span_id
  let st := { st with spans := dictSet span_id span st.spans }
  let placement := startPlacement st.container_id parent_context span
  let parent_id := placement.1
  let target_id := placement.2.1
  let is_root := placement.2.2
  let st :=
    match parent_id with
    | some pid => { st with parent_child_map := dictSet span_id pid st.parent_child_map }
    | none => st
  let children_container_id := s!"span-children-{span_id}"
  let renderer := get_renderer_for_span st.renderers st.renderer span
  match renderer.render_complete_span span children_container_id is_root with
  | .error e => .error (⟨st, q, []⟩, e)
  | .ok span_html =>
    let wrapper : MPatch := ⟨"beforeend", target_id, span_html⟩
    let ql := put_in_queue st.queueKind loopRunning q wrapper
    .ok ⟨st, ql.1, ql.2⟩

/-- `ThreadSafeSpanProcessor.on_start`: `_suppress_instrumentation` sets and
clears the suppression context key (external, no effect on this model) and
runs `_handle_start`, whose outer `except Exception` catches and logs any
escaping exception.  Typed as `Except` to record that the callback itself
may in principle raise to the tracing runtime. -/
def ts_on_start (st : TSState) (loopRunning : Bool) (q : List MPatch)
    (span : MSpan) (parent_context : Option CtxSpan) :
    Except String (CbOut TSState) :=
  match ts_handle_start_body st loopRunning q span parent_context with
  | .ok r => .ok r
  | .error (r, e) => .ok { r with logs := r.logs ++ [s!"Error handling span start: {e}"] }

/-- The `try:` block of `ThreadSafeSpanProcessor._handle_end`: store the
ended span, select a renderer, then render and enqueue the header,
attributes and events replace patches one after another.  A raising render
call escapes with the queue as already filled. -/
def ts_handle_end_body (st : TSState) (loopRunning : Bool) (q : List MPatch)
    (span : MSpan) : Except (CbOut TSState × String) (CbOut TSState) :=
  let span_id := span.span_id
  let st := { st with spans := dictSet span_id span st.spans }
  let renderer := get_renderer_for_span st.renderers st.renderer span
  match renderer.render_header span with
  | .error e => .error (⟨st, q, []⟩, e)
  | .ok updated_header =>
    let header_wrapper : MPatch := ⟨"innerHTML", s!"span-header-{span_id}", updated_header⟩
    let ql₁ := put_in_queue st.queueKind loopRunning q header_wrapper
    match renderer.render_attributes span with
    | .error e => .error (⟨st, ql₁.1, ql₁.2⟩, e)
    | .ok updated_attributes =>
      let attr_wrapper : MPatch := ⟨"innerHTML", s!"span-attributes-{span_id}", updated_attributes⟩
      let ql₂ := put_in_queue st.queueKind loopRunning ql₁.1 attr_wrapper
      match renderer.render_events span with
      | .error e => .error (⟨st, ql₂.1, ql₁.2 ++ ql₂.2⟩, e)
      | .ok updated_events =>
        let events_wrapper : MPatch := ⟨"innerHTML", s!"span-events-{span_id}", updated_events⟩
        let ql₃ := put_in_queue st.queueKind loopRunning ql₂.1 events_wrapper
        .ok ⟨st, ql₃.1, ql₁.2 ++ ql₂.2 ++ ql₃.2⟩

/-- `ThreadSafeSpanProcessor.on_end`: `_suppress_instrumentation` around
`_handle_end`, whose outer `except Exception` catches and logs any escaping
exception. -/
def ts_on_end (st : TSState) (loopRunning : Bool) (q : List MPatch)
    (span : MSpan) : Except String (CbOut TSState) :=
  match ts_handle_end_body st loopRunning q span with
  | .ok r => .ok r
  | .error (r, e) => .ok { r with logs := r.logs ++ [s!"Error handling span end: {e}"] }

/-- `FastHTMLSpanProcessor` state: root container id, the single
`self.renderer`, the tracking maps, `pending_updates`, and the
`renderer_filters` list that `__init__` creates and no method reads. -/
structure FHState where
  container_id : String
  renderer : Renderer
  spans : List (Nat × MSpan)
  parent_child_map : List (Nat × Nat)
  pending_updates : List Nat
  renderer_filters : List ((MSpan → Except String Bool) × Renderer)

/-- `FastHTMLSpanProcessor._queue_update`: `asyncio.get_running_loop()`
raises `RuntimeError` when no loop runs, which the method's own
`except Exception` catches and logs; with a running loop, `queue.put` is
scheduled as a task (modelled as an enqueue). -/
def queue_update (loopRunning : Bool) (q : List MPatch) (p : MPatch) :
    List MPatch × List String :=
  if loopRunning then (q ++ [p], [])
  else (q, ["Error queuing update: no running event loop"])

/-- The `try:` block of `FastHTMLSpanProcessor.on_start`: identical parent
resolution and placement, but always rendering with `self.renderer`. -/
def fh_on_start_body (st : FHState) (loopRunning : Bool) (q : List MPatch)
    (span : MSpan) (parent_context : Option CtxSpan) :
    Except (CbOut FHState × String) (CbOut FHState) :=
  let span_id := span.span_id
  let st := { st with spans := dictSet span_id span st.spans }
  let placement := startPlacement st.container_id parent_context span
  let parent_id := placement.1
  let target_id := placement.2.1
  let is_root := placement.2.2
  let st :=
    match parent_id with
    | some pid => { st with parent_child_map := dictSet span_id pid st.parent_child_map }
    | none => st
  let children_container_id := s!"span-children-{span_id}"
  match st.renderer.render_complete_span span children_container_id is_root with
  | .error e => .error (⟨st, q, []⟩, e)
  | .ok span_html =>
    let wrapper : MPatch := ⟨"beforeend", target_id, span_html⟩
    let ql := queue_update loopRunning q wrapper
    .ok ⟨st, ql.1, ql.2⟩

/-- `FastHTMLSpanProcessor.on_start`: the body under its
`except Exception` handler. -/
def fh_on_start (st : FHState) (loopRunning : Bool) (q : List MPatch)
    (span : MSpan) (parent_context : Option CtxSpan) :
    Except String (CbOut FHState) :=
  match fh_on_start_body st loopRunning q span parent_context with
  | .ok r => .ok r
  | .error (r, e) => .ok { r with logs := r.logs ++ [s!"Error in on_start for span {span.name}: {e}"] }

/-- The `try:` block of `FastHTMLSpanProcessor.on_end`: render all three
fragments with `self.renderer` first, then queue the three replace patches;
a raising render call escapes before anything is queued. -/
def fh_on_end_body (st : FHState) (loopRunning : Bool) (q : List MPatch)
    (span : MSpan) : Except (CbOut FHState × String) (CbOut FHState) :=
  let span_id := span.span_id
  let st := { st with spans := dictSet span_id span st.spans }
  match st.renderer.render_header span with
  | .error e => .error (⟨st, q, []⟩, e)
  | .ok updated_header =>
    match st.renderer.render_attributes span with
    | .error e => .error (⟨st, q, []⟩, e)
    | .ok updated_attributes =>
      match st.renderer.render_events span with
      | .error e => .error (⟨st, q, []⟩, e)
      | .ok updated_events =>
        let header_wrapper : MPatch := ⟨"innerHTML", s!"span-header-{span_id}", updated_header⟩
        let attr_wrapper : MPatch := ⟨"innerHTML", s!"span-attributes-{span_id}", updated_attributes⟩
        let events_wrapper : MPatch := ⟨"innerHTML", s!"span-events-{span_id}", updated_events⟩
        let ql₁ := queue_update loopRunning q header_wrapper
        let ql₂ := queue_update loopRunning ql₁.1 attr_wrapper
        let ql₃ := queue_update loopRunning ql₂.1 events_wrapper
        .ok ⟨st, ql₃.1, ql₁.2 ++ ql₂.2 ++ ql₃.2⟩

/-- `FastHTMLSpanProcessor.on_end`: the body under its `except Exception`
handler. -/
def fh_on_end (st : FHState) (loopRunning : Bool) (q : List MPatch)
    (span : MSpan) : Except String (CbOut FHState) :=
  match fh_on_end_body st loopRunning q span with
  | .ok r => .ok r
  | .error (r, e) => .ok { r with logs := r.logs ++ [s!"Error in on_end for span {span.name}: {e}"] }

/-- One iteration of `OTelStreamer._telemetry_generator`: the bounded wait
(timeout 1.0 s) either yields a dequeued serialized patch (`some msg`) and
the loop emits a `TelemetryEvent` event carrying it, or it times out
(`none`) and the loop emits a `heartbeat` event with empty payload.  The
emitted pair is (event name, data); both queue disciplines take the same
shape. -/
def telemetry_step (msg : Option String) : String × String :=
  match msg with
  | some m => ("TelemetryEvent", m)
  | none => ("heartbeat", "")

/-- A run of consecutive consumer-loop iterations over the sequence of
bounded-wait outcomes. -/
def telemetry_run (xs : List (Option String)) : List (String × String) :=
  xs.map telemetry_step

/-- Python `m.get(k)` on the association-list model of a dict. -/
def dictGet (k : Nat) : List (Nat × α) → Option α
  | [] => none
  | (k₂, v) :: rest => if k₂ = k then some v else dictGet k rest

/-- Whether an `Except`-typed call returned normally. -/
def exceptOk : Except ε α → Bool
  | .ok _ => true
  | .error _ => false

/-- The targets of the patches enqueued by a callback (empty if the callback
raised). -/
def cbQueueTargets (r : Except String (CbOut σ)) : List String :=
  match r with
  | .ok out => out.queue.map MPatch.target
  | .error _ => []

/-- The queue contents after a callback (empty if the callback raised). -/
def cbQueue (r : Except String (CbOut σ)) : List MPatch :=
  match r with
  | .ok out => out.queue
  | .error _ => []

/-- A non-root span named `"Tool: Roll a die"` (id 2, parent id 1). -/
def toolSpan : MSpan :=
  { span_id := 2, name := "Tool: Roll a die", parent := some ⟨1, 1⟩,
    attributes := [], events := [], statusCode := none,
    startTime := some 0, endTime := none }

/-- A non-root span named `"ai_processing"` (id 3, parent id 1). -/
def aiSpan : MSpan :=
  { toolSpan with span_id := 3, name := "ai_processing" }

/-- A recording context span with a valid span context (parent id 5). -/
def recordingCtx : CtxSpan := { isRecording := true, spanContext := { trace_id := 9, span_id := 5 } }

/-- A fresh `ThreadSafeSpanProcessor` on a `queue.Queue` with the default
renderer and no registered custom renderers (the `configure` default). -/
def tsW : TSState :=
  { container_id := "telemetry-container", queueKind := .sync,
    renderer := defaultSpanRenderer [], renderers := [],
    spans := [], parent_child_map := [] }

/-- A fresh `FastHTMLSpanProcessor` with the default renderer. -/
def fhW : FHState :=
  { container_id := "telemetry-container", renderer := defaultSpanRenderer [],
    spans := [], parent_child_map := [], pending_updates := [],
    renderer_filters := [] }

/-- A strategy whose `render_attributes` raises (and whose other calls
behave like the default renderer). -/
def errAttrRenderer : Renderer :=
  { defaultSpanRenderer [] with render_attributes := fun _ => .error "boom" }

/-- A `ThreadSafeSpanProcessor` whose selected renderer raises in
`render_attributes`. -/
def cexTS : TSState := { tsW with renderer := errAttrRenderer }

/-- An ended root span with id 7 and no attributes or events. -/
def cexSpan : MSpan :=
  { span_id := 7, name := "ended", parent := none, attributes := [],
    events := [], statusCode := some "OK", startTime := some 0,
    endTime := some 5000000 }


/-- The `CbOut` carried by a callback body result, whether it returned
normally or escaped with an exception (whose payload carries the state at
the raise point). -/
def bodyOut : Except (CbOut σ × String) (CbOut σ) → CbOut σ
  | .ok r => r
  | .error (r, _) => r

theorem dictGet_dictSet_self (k : Nat) (v : α) (m : List (Nat × α)) :
    dictGet k (dictSet k v m) = some v := by
  induction m with
  | nil => simp [dictSet, dictGet]
  | cons hd tl ih =>
    obtain ⟨k₂, v₂⟩ := hd
    by_cases h : k₂ = k
    · simp [dictSet, h, dictGet]
    · simp [dictSet, h, dictGet, ih]

theorem dictGet_dictSet_ne (k k₂ : Nat) (v : α) (m : List (Nat × α))
    (h : k₂ ≠ k) : dictGet k₂ (dictSet k v m) = dictGet k₂ m := by
  have h₄ : ¬ k = k₂ := fun h₂ => h h₂.symm
  induction m with
  | nil => simp [dictSet, dictGet, h₄]
  | cons hd tl ih =>
    obtain ⟨k₃, v₃⟩ := hd
    by_cases h₃ : k₃ = k
    · subst h₃
      simp [dictSet, dictGet, h₄]
    · simp [dictSet, h₃, dictGet, ih]

theorem hasChecked_header (span : MSpan) :
    hasCheckedInput (default_render_header span) = false := by
  simp [default_render_header, hasCheckedInput, hasCheckedList]

theorem hasChecked_attrRows (l : List (String × String)) :
    hasCheckedList (l.map attrRow) = false := by
  induction l with
  | nil => simp [hasCheckedList]
  | cons hd tl ih => simp [attrRow, hasCheckedInput, hasCheckedList, ih]

theorem hasChecked_attributes (span : MSpan) :
    hasCheckedInput (default_render_attributes span) = false := by
  unfold default_render_attributes
  by_cases h : span.attributes.isEmpty
  · simp [h, hasCheckedInput, hasCheckedList]
  · simp [h, hasCheckedInput, hasCheckedList, hasChecked_attrRows]

theorem hasChecked_eventRows (l : List MEvent) :
    hasCheckedList (l.map eventRow) = false := by
  induction l with
  | nil => simp [hasCheckedList]
  | cons hd tl ih => simp [eventRow, hasCheckedInput, hasCheckedList, ih]

theorem hasChecked_events (span : MSpan) :
    hasCheckedInput (default_render_events span) = false := by
  unfold default_render_events
  by_cases h : span.events.isEmpty
  · simp [h, hasCheckedInput, hasCheckedList]
  · simp [h, hasCheckedInput, hasCheckedList, hasChecked_eventRows]

theorem shouldExpandLoop_eq_any (init : Bool) (patterns : List String) (name : String) :
    shouldExpandLoop init patterns name
      = (init || patterns.any fun p => pyInLower p name) := by
  induction patterns with
  | nil => simp [shouldExpandLoop]
  | cons p ps ih =>
    by_cases h : pyInLower p name = true
    · simp [shouldExpandLoop, h]
    · simp only [Bool.not_eq_true] at h
      simp [shouldExpandLoop, h, ih]

theorem hasChecked_complete_span (pats : List String) (span : MSpan)
    (cid : String) (is_root : Bool) :
    hasCheckedInput (default_render_complete_span pats span cid is_root)
      = shouldExpandLoop is_root pats span.name := by
  by_cases h : shouldExpandLoop is_root pats span.name = true
  · simp [default_render_complete_span, hasCheckedInput, hasCheckedList, h,
      hasChecked_header, hasChecked_attributes, hasChecked_events]
  · simp only [Bool.not_eq_true] at h
    simp [default_render_complete_span, hasCheckedInput, hasCheckedList, h,
      hasChecked_header, hasChecked_attributes, hasChecked_events]
    exact hasChecked_header span

/-- C8: for every span rendered by `DefaultSpanRenderer.render_complete_span`,
the initial state encoded in the fragment (the collapse checkbox's `checked`
attribute) is expanded iff `is_root` is true or the span's name
case-insensitively contains one of the configured auto-expand substring
patterns.  In particular, with pattern `"Tool:"`, the non-root span named
`"Tool: Roll a die"` is expanded and the non-root span named
`"ai_processing"` is collapsed. -/
theorem auto_expand_initial_state (pats : List String) (span : MSpan)
    (cid : String) (is_root : Bool) :
    (hasCheckedInput (default_render_complete_span pats span cid is_root)
        = (is_root || pats.any fun p => pyInLower p span.name))
    ∧ hasCheckedInput
        (default_render_complete_span ["Tool:"] toolSpan "span-children-2" false) = true
    ∧ hasCheckedInput
        (default_render_complete_span ["Tool:"] aiSpan "span-children-3" false) = false := by
  refine ⟨?_, ?_, ?_⟩
  · rw [hasChecked_complete_span, shouldExpandLoop_eq_any]
  · rw [hasChecked_complete_span]
    decide
  · rw [hasChecked_complete_span]
    decide

/-- C3: renderer selection returns the first strategy in registration order
whose `can_render` returns `True` (the fallback `self.renderer` when none
matches); a raising `can_render` is treated as a non-match and skipped
without propagating the error; in particular, for a span matched by both of
the first two registered strategies, the first is selected. -/
theorem renderer_dispatch_first_match (renderers : List Renderer)
    (fallback : Renderer) (span : MSpan) :
    (get_renderer_for_span renderers fallback span
        = ((renderers.find? fun r => canRenderOk r span).getD fallback))
    ∧ (∀ r rest e, r.can_render span = .error e →
        get_renderer_for_span (r :: rest) fallback span
          = get_renderer_for_span rest fallback span)
    ∧ (∀ r₁ r₂ rest, canRenderOk r₁ span = true →
        get_renderer_for_span (r₁ :: r₂ :: rest) fallback span = r₁) := by
  refine ⟨?_, ?_, ?_⟩
  · induction renderers with
    | nil => simp [get_renderer_for_span]
    | cons r rest ih =>
      cases h : r.can_render span with
      | ok b =>
        cases b
        · simp [get_renderer_for_span, h, List.find?, canRenderOk, ih]
        · simp [get_renderer_for_span, h, List.find?, canRenderOk]
      | error e => simp [get_renderer_for_span, h, List.find?, canRenderOk, ih]
  · intro r rest e he
    simp [get_renderer_for_span, he]
  · intro r₁ r₂ rest h₁
    cases h : r₁.can_render span with
    | ok b =>
      cases b
      · simp [canRenderOk, h] at h₁
      · simp [get_renderer_for_span, h]
    | error e => simp [canRenderOk, h] at h₁

/-- Witness for C3: both of the first two registered strategies match the
span, and selection yields the first. -/
theorem renderer_dispatch_first_match_witness :
    canRenderOk (defaultSpanRenderer []) toolSpan = true
    ∧ get_renderer_for_span [defaultSpanRenderer [], defaultSpanRenderer ["x"]]
        (defaultSpanRenderer ["y"]) toolSpan = defaultSpanRenderer [] :=
  ⟨rfl,
   (renderer_dispatch_first_match
      [defaultSpanRenderer [], defaultSpanRenderer ["x"]]
      (defaultSpanRenderer ["y"]) toolSpan).2.2
     (defaultSpanRenderer []) (defaultSpanRenderer ["x"]) [] rfl⟩

/-- C6: the public callbacks `on_start` and `on_end` of both processors
return normally on every input — every state, queue discipline, renderer
behaviour (including raising `can_render`/render calls) and with or without
a running event loop — because each handler body sits under a
`try/except Exception` that catches and logs internal errors. -/
theorem callbacks_never_raise (st : TSState) (fst : FHState) (loop : Bool)
    (q : List MPatch) (span : MSpan) (pc : Option CtxSpan) :
    exceptOk (ts_on_start st loop q span pc) = true
    ∧ exceptOk (ts_on_end st loop q span) = true
    ∧ exceptOk (fh_on_start fst loop q span pc) = true
    ∧ exceptOk (fh_on_end fst loop q span) = true := by
  refine ⟨?_, ?_, ?_, ?_⟩
  · cases h : ts_handle_start_body st loop q span pc with
    | ok r => simp [ts_on_start, h, exceptOk]
    | error pr => obtain ⟨r, e⟩ := pr; simp [ts_on_start, h, exceptOk]
  · cases h : ts_handle_end_body st loop q span with
    | ok r => simp [ts_on_end, h, exceptOk]
    | error pr => obtain ⟨r, e⟩ := pr; simp [ts_on_end, h, exceptOk]
  · cases h : fh_on_start_body fst loop q span pc with
    | ok r => simp [fh_on_start, h, exceptOk]
    | error pr => obtain ⟨r, e⟩ := pr; simp [fh_on_start, h, exceptOk]
  · cases h : fh_on_end_body fst loop q span with
    | ok r => simp [fh_on_end, h, exceptOk]
    | error pr => obtain ⟨r, e⟩ := pr; simp [fh_on_end, h, exceptOk]

theorem ts_handle_end_body_state (st : TSState) (loop : Bool)
    (q : List MPatch) (span : MSpan) :
    (bodyOut (ts_handle_end_body st loop q span)).state
      = { st with spans := dictSet span.span_id span st.spans } := by
  unfold ts_handle_end_body
  dsimp only
  repeat' split
  all_goals rfl

theorem fh_on_end_body_state (fst : FHState) (loop : Bool)
    (q : List MPatch) (span : MSpan) :
    (bodyOut (fh_on_end_body fst loop q span)).state
      = { fst with spans := dictSet span.span_id span fst.spans } := by
  unfold fh_on_end_body
  dsimp only
  repeat' split
  all_goals rfl

/-- C9: the end callback of either processor updates only the stored span
snapshot for the ended span's identity — the parent/child mapping resolved
at start time is left unchanged, and stored snapshots of all other span
identities are untouched — whether or not the render calls raise. -/
theorem parent_identity_immutable (st : TSState) (fst : FHState) (loop : Bool)
    (q : List MPatch) (span : MSpan) :
    (∀ r, ts_on_end st loop q span = .ok r →
        r.state.parent_child_map = st.parent_child_map
        ∧ dictGet span.span_id r.state.spans = some span
        ∧ ∀ k, k ≠ span.span_id → dictGet k r.state.spans = dictGet k st.spans)
    ∧ (∀ r, fh_on_end fst loop q span = .ok r →
        r.state.parent_child_map = fst.parent_child_map
        ∧ dictGet span.span_id r.state.spans = some span
        ∧ ∀ k, k ≠ span.span_id → dictGet k r.state.spans = dictGet k fst.spans) := by
  constructor
  · intro r h
    unfold ts_on_end at h
    have hs := ts_handle_end_body_state st loop q span
    cases hb : ts_handle_end_body st loop q span with
    | ok out =>
      rw [hb] at h hs
      dsimp only [bodyOut] at hs
      cases h
      rw [hs]
      exact ⟨rfl, dictGet_dictSet_self _ _ _, fun k hk => dictGet_dictSet_ne _ _ _ _ hk⟩
    | error pr =>
      obtain ⟨out, e⟩ := pr
      rw [hb] at h hs
      dsimp only [bodyOut] at hs
      cases h
      dsimp only
      rw [hs]
      exact ⟨rfl, dictGet_dictSet_self _ _ _, fun k hk => dictGet_dictSet_ne _ _ _ _ hk⟩
  · intro r h
    unfold fh_on_end at h
    have hs := fh_on_end_body_state fst loop q span
    cases hb : fh_on_end_body fst loop q span with
    | ok out =>
      rw [hb] at h hs
      dsimp only [bodyOut] at hs
      cases h
      rw [hs]
      exact ⟨rfl, dictGet_dictSet_self _ _ _, fun k hk => dictGet_dictSet_ne _ _ _ _ hk⟩
    | error pr =>
      obtain ⟨out, e⟩ := pr
      rw [hb] at h hs
      dsimp only [bodyOut] at hs
      cases h
      dsimp only
      rw [hs]
      exact ⟨rfl, dictGet_dictSet_self _ _ _, fun k hk => dictGet_dictSet_ne _ _ _ _ hk⟩

/-- Witness for C9: ending span 7 on a fresh thread-safe processor that
already tracks `parent_child_map = [(2, 1)]` leaves that mapping intact. -/
theorem parent_identity_immutable_witness :
    ∀ r, ts_on_end { tsW with parent_child_map := [(2, 1)] } true [] cexSpan = .ok r →
      r.state.parent_child_map = [(2, 1)] := by
  intro r h
  exact ((parent_identity_immutable { tsW with parent_child_map := [(2, 1)] } fhW
    true [] cexSpan).1 r h).1

theorem ts_handle_start_body_state (st : TSState) (loop : Bool)
    (q : List MPatch) (span : MSpan) (pc : Option CtxSpan) :
    (bodyOut (ts_handle_start_body st loop q span pc)).state
      = (match resolveParentId pc span with
         | some pid =>
            { st with spans := dictSet span.span_id span st.spans,
                      parent_child_map := dictSet span.span_id pid st.parent_child_map }
         | none => { st with spans := dictSet span.span_id span st.spans }) := by
  unfold ts_handle_start_body startPlacement
  dsimp only
  repeat' split
  all_goals rfl

theorem ts_on_start_ok_state (st : TSState) (loop : Bool) (q : List MPatch)
    (span : MSpan) (pc : Option CtxSpan) (r : CbOut TSState)
    (h : ts_on_start st loop q span pc = .ok r) :
    r.state
      = (match resolveParentId pc span with
         | some pid =>
            { st with spans := dictSet span.span_id span st.spans,
                      parent_child_map := dictSet span.span_id pid st.parent_child_map }
         | none => { st with spans := dictSet span.span_id span st.spans }) := by
  unfold ts_on_start at h
  have hs := ts_handle_start_body_state st loop q span pc
  cases hb : ts_handle_start_body st loop q span pc with
  | ok out =>
    rw [hb] at h hs
    dsimp only [bodyOut] at hs
    cases h
    exact hs
  | error pr =>
    obtain ⟨out, e⟩ := pr
    rw [hb] at h hs
    dsimp only [bodyOut] at hs
    cases h
    exact hs

theorem ctx_resolved_ne_zero (pc : Option CtxSpan) (cpid : Nat)
    (h : ctx_resolved pc = some cpid) : cpid ≠ 0 := by
  unfold ctx_resolved at h
  cases pc with
  | none => cases h
  | some c =>
    dsimp only at h
    by_cases hb : (c.isRecording && c.spanContext.isValid) = true
    · rw [if_pos hb] at h
      cases h
      simp only [SpanContext.isValid, Bool.and_eq_true, bne_iff_ne, ne_eq] at hb
      exact hb.2.2
    · rw [if_neg hb] at h
      cases h

theorem resolved_pid_ne_zero (pc : Option CtxSpan) (span : MSpan) (pid : Nat)
    (hv : ∀ p, span.parent = some p → p.span_id ≠ 0)
    (h : resolveParentId pc span = some pid) : pid ≠ 0 := by
  unfold resolveParentId at h
  cases hc : ctx_resolved pc with
  | some cpid =>
    rw [hc] at h
    cases h
    exact ctx_resolved_ne_zero pc _ hc
  | none =>
    rw [hc] at h
    cases hp : span.parent with
    | some p =>
      rw [hp] at h
      cases h
      exact hv p hp
    | none =>
      rw [hp] at h
      cases h

theorem ts_on_start_queue (st : TSState) (loop : Bool) (q : List MPatch)
    (span : MSpan) (pc : Option CtxSpan) (frag : Html)
    (hr : (get_renderer_for_span st.renderers st.renderer span).render_complete_span
            span s!"span-children-{span.span_id}" (resolveParentId pc span).isNone
          = .ok frag) :
    cbQueue (ts_on_start st loop q span pc)
      = (put_in_queue st.queueKind loop q
          ⟨"beforeend", (startPlacement st.container_id pc span).2.1, frag⟩).1 := by
  unfold ts_on_start ts_handle_start_body startPlacement
  dsimp only
  cases hp : resolveParentId pc span with
  | none =>
    rw [hp] at hr
    simp only [Option.isNone_none] at hr
    simp [hp, hr, cbQueue]
  | some pid =>
    rw [hp] at hr
    simp only [Option.isNone_some] at hr
    simp [hp, hr, cbQueue]

/-- C1: at span start, the parent identity is resolved from the active
tracing context when `get_current_span(parent_context)` is recording with a
valid span context; only when the context yields nothing is the span
object's static `span.parent` used; when neither applies, resolution yields
no parent and the span is treated as a root (`is_root = true`).  In every
case the thread-safe processor records exactly the resolved identity in
`parent_child_map` and stores the span snapshot. -/
theorem parent_resolution_precedence (pc : Option CtxSpan) (span : MSpan) :
    (∀ c, pc = some c → c.isRecording = true → c.spanContext.isValid = true →
        resolveParentId pc span = some c.spanContext.span_id)
    ∧ (ctx_resolved pc = none → ∀ p, span.parent = some p →
        resolveParentId pc span = some p.span_id)
    ∧ (ctx_resolved pc = none → span.parent = none →
        resolveParentId pc span = none
        ∧ (∀ cid, (startPlacement cid pc span).2.2 = true))
    ∧ (∀ st loop q r, ts_on_start st loop q span pc = Except.ok r →
        r.state.parent_child_map
          = (match resolveParentId pc span with
             | some pid => dictSet span.span_id pid st.parent_child_map
             | none => st.parent_child_map)
        ∧ dictGet span.span_id r.state.spans = some span) := by
  refine ⟨?_, ?_, ?_, ?_⟩
  · intro c hc hrec hval
    subst hc
    unfold resolveParentId ctx_resolved
    simp [hrec, hval]
  · intro hc p hp
    unfold resolveParentId
    simp [hc, hp]
  · intro hc hp
    refine ⟨?_, ?_⟩
    · unfold resolveParentId
      simp [hc, hp]
    · intro cid
      unfold startPlacement resolveParentId
      simp [hc, hp]
  · intro st loop q r h
    have hs := ts_on_start_ok_state st loop q span pc r h
    constructor
    · rw [hs]
      cases hx : resolveParentId pc span <;> simp [hx]
    · rw [hs]
      cases hx : resolveParentId pc span <;> simp [hx, dictGet_dictSet_self]

/-- Witness for C1: a recording valid context wins over the static parent;
with no usable context the static parent reference is used; with neither
the span resolves to no parent. -/
theorem parent_resolution_precedence_witness :
    resolveParentId (some recordingCtx) toolSpan = some 5
    ∧ resolveParentId none toolSpan = some 1
    ∧ resolveParentId none cexSpan = none := by
  refine ⟨?_, ?_, ?_⟩
  · exact (parent_resolution_precedence (some recordingCtx) toolSpan).1
      recordingCtx rfl rfl rfl
  · exact (parent_resolution_precedence none toolSpan).2.1 rfl ⟨1, 1⟩ rfl
  · exact ((parent_resolution_precedence none cexSpan).2.2.1 rfl rfl).1

/-- C2: a span with no resolved parent is appended to the configured root
container with `is_root = true`; a span whose resolved parent is `pid` is
appended to `"span-children-" ++ pid` with `is_root = false`, the target
being a pure function of the parent identity (no render or delivery state
of the parent is consulted).  The hypothesis on `span.parent` reflects the
tracing SDK invariant that a stored static parent reference is a valid
(nonzero) span context. -/
theorem start_patch_target_derivation (st : TSState) (loop : Bool)
    (q : List MPatch) (pc : Option CtxSpan) (span : MSpan) (frag : Html)
    (hv : ∀ p, span.parent = some p → p.span_id ≠ 0)
    (hr : (get_renderer_for_span st.renderers st.renderer span).render_complete_span
            span s!"span-children-{span.span_id}" (resolveParentId pc span).isNone
          = .ok frag) :
    (resolveParentId pc span = none →
        (startPlacement st.container_id pc span).2.1 = st.container_id
        ∧ (startPlacement st.container_id pc span).2.2 = true)
    ∧ (∀ pid, resolveParentId pc span = some pid →
        (startPlacement st.container_id pc span).2.1 = s!"span-children-{pid}"
        ∧ (startPlacement st.container_id pc span).2.2 = false)
    ∧ cbQueue (ts_on_start st loop q span pc)
        = (put_in_queue st.queueKind loop q
            ⟨"beforeend", (startPlacement st.container_id pc span).2.1, frag⟩).1 := by
  refine ⟨?_, ?_, ?_⟩
  · intro hp
    unfold startPlacement
    simp [hp, optTruthy]
  · intro pid hp
    have hnz := resolved_pid_ne_zero pc span pid hv hp
    unfold startPlacement
    simp [hp, optTruthy, hnz]
  · exact ts_on_start_queue st loop q span pc frag hr

/-- Witness for C2: with a recording valid context carrying parent id 5,
span 2 is targeted at `"span-children-5"` and rendered non-root. -/
theorem start_patch_target_derivation_witness :
    (startPlacement "telemetry-container" (some recordingCtx) toolSpan).2.1
      = "span-children-5"
    ∧ (startPlacement "telemetry-container" (some recordingCtx) toolSpan).2.2
      = false := by
  have h := start_patch_target_derivation tsW true []
    (some recordingCtx) toolSpan
    (default_render_complete_span [] toolSpan "span-children-2" false)
    (by intro p hp; cases hp; decide) rfl
  exact h.2.1 5 rfl

/-- C4: when the three end-time render calls return normally, the end
callback of either processor enqueues exactly three replace-contents
patches, in order targeting `span-header-`, `span-attributes-` and
`span-events-` for the ended span's identity, carrying the freshly
re-rendered fragments — with no condition on the fragments being nonempty.
(The thread-safe side is stated for the `queue.Queue` discipline, the
cooperative side for a running event loop.) -/
theorem end_rerender_three_patches (st : TSState) (fst : FHState) (loop : Bool)
    (q qf : List MPatch) (span : MSpan) (h a e hf af ef : Html)
    (hsync : st.queueKind = QueueKind.sync)
    (hh : (get_renderer_for_span st.renderers st.renderer span).render_header span = .ok h)
    (ha : (get_renderer_for_span st.renderers st.renderer span).render_attributes span = .ok a)
    (he : (get_renderer_for_span st.renderers st.renderer span).render_events span = .ok e)
    (hh₂ : fst.renderer.render_header span = .ok hf)
    (ha₂ : fst.renderer.render_attributes span = .ok af)
    (he₂ : fst.renderer.render_events span = .ok ef) :
    ts_on_end st loop q span
      = .ok ⟨{ st with spans := dictSet span.span_id span st.spans },
             q ++ [⟨"innerHTML", s!"span-header-{span.span_id}", h⟩,
                   ⟨"innerHTML", s!"span-attributes-{span.span_id}", a⟩,
                   ⟨"innerHTML", s!"span-events-{span.span_id}", e⟩], []⟩
    ∧ fh_on_end fst true qf span
      = .ok ⟨{ fst with spans := dictSet span.span_id span fst.spans },
             qf ++ [⟨"innerHTML", s!"span-header-{span.span_id}", hf⟩,
                    ⟨"innerHTML", s!"span-attributes-{span.span_id}", af⟩,
                    ⟨"innerHTML", s!"span-events-{span.span_id}", ef⟩], []⟩ := by
  constructor
  · unfold ts_on_end ts_handle_end_body
    dsimp only
    simp [hh, ha, he, hsync, put_in_queue]
  · unfold fh_on_end fh_on_end_body
    dsimp only
    simp [hh₂, ha₂, he₂, queue_update]

/-- Witness for C4: ending span 7 (no attributes and no events, so two of
the three fragments are empty) still enqueues all three replace patches in
order. -/
theorem end_rerender_three_patches_witness :
    cbQueueTargets (ts_on_end tsW true [] cexSpan)
      = ["span-header-7", "span-attributes-7", "span-events-7"] := by
  have h := end_rerender_three_patches tsW fhW true [] [] cexSpan
    (default_render_header cexSpan) (default_render_attributes cexSpan)
    (default_render_events cexSpan) (default_render_header cexSpan)
    (default_render_attributes cexSpan) (default_render_events cexSpan)
    rfl rfl rfl rfl rfl rfl rfl
  rw [show (ts_on_end tsW true [] cexSpan) = _ from h.1]
  rfl

/-- Counterexample for C5 (claim: a raising render call does not suppress
the other two): with a strategy whose `render_attributes` raises, the
thread-safe end callback enqueues only the header patch — `render_events`
is never attempted and no events patch is enqueued — and the cooperative
end callback enqueues nothing at all, because all three render calls sit in
one `try` block. -/
theorem end_render_failure_counterexample :
    cbQueueTargets (ts_on_end cexTS true [] cexSpan) = ["span-header-7"]
    ∧ cbQueueTargets (fh_on_end { fhW with renderer := errAttrRenderer } true [] cexSpan)
      = [] := by
  constructor <;> rfl

/-- C5 as amended: a raising render call aborts the remaining end-time
render calls for that span (the exception is caught and logged at the
callback boundary).  In the thread-safe processor the patches already
enqueued before the failure survive: a header failure enqueues nothing, an
attributes failure enqueues only the header patch, an events failure
enqueues header and attributes patches.  In the cooperative processor,
which queues only after all three renders, any failure suppresses all three
patches. -/
theorem end_render_failure_amended (st : TSState) (fst : FHState) (loop : Bool)
    (q qf : List MPatch) (span : MSpan) (h a : Html) (msg : String)
    (hsync : st.queueKind = QueueKind.sync) :
    ((get_renderer_for_span st.renderers st.renderer span).render_header span
        = .error msg →
      cbQueue (ts_on_end st loop q span) = q)
    ∧ ((get_renderer_for_span st.renderers st.renderer span).render_header span
        = .ok h →
       (get_renderer_for_span st.renderers st.renderer span).render_attributes span
        = .error msg →
      cbQueue (ts_on_end st loop q span)
        = q ++ [⟨"innerHTML", s!"span-header-{span.span_id}", h⟩])
    ∧ ((get_renderer_for_span st.renderers st.renderer span).render_header span
        = .ok h →
       (get_renderer_for_span st.renderers st.renderer span).render_attributes span
        = .ok a →
       (get_renderer_for_span st.renderers st.renderer span).render_events span
        = .error msg →
      cbQueue (ts_on_end st loop q span)
        = q ++ [⟨"innerHTML", s!"span-header-{span.span_id}", h⟩,
                ⟨"innerHTML", s!"span-attributes-{span.span_id}", a⟩])
    ∧ ((fst.renderer.render_header span = .error msg
          ∨ fst.renderer.render_attributes span = .error msg
          ∨ fst.renderer.render_events span = .error msg) →
      cbQueue (fh_on_end fst loop qf span) = qf) := by
  refine ⟨?_, ?_, ?_, ?_⟩
  · intro hh
    unfold ts_on_end ts_handle_end_body
    dsimp only
    simp [hh, cbQueue]
  · intro hh ha
    unfold ts_on_end ts_handle_end_body
    dsimp only
    simp [hh, ha, hsync, put_in_queue, cbQueue]
  · intro hh ha he
    unfold ts_on_end ts_handle_end_body
    dsimp only
    simp [hh, ha, he, hsync, put_in_queue, cbQueue]
  · intro hd
    unfold fh_on_end fh_on_end_body
    dsimp only
    cases hh : fst.renderer.render_header span with
    | error e => simp [hh, cbQueue]
    | ok uh =>
      cases ha : fst.renderer.render_attributes span with
      | error e => simp [hh, ha, cbQueue]
      | ok ua =>
        cases he : fst.renderer.render_events span with
        | error e => simp [hh, ha, he, cbQueue]
        | ok ue =>
          rcases hd with h₁ | h₂ | h₃ <;> simp_all

/-- Witness for the amended C5: on the concrete attributes-raising strategy,
the thread-safe end callback leaves exactly the header patch in the queue. -/
theorem end_render_failure_amended_witness :
    cbQueue (ts_on_end cexTS true [] cexSpan)
      = [⟨"innerHTML", "span-header-7", default_render_header cexSpan⟩] := by
  have h := end_render_failure_amended cexTS fhW true [] [] cexSpan
    (default_render_header cexSpan) (default_render_attributes cexSpan) "boom" rfl
  exact h.2.1 rfl rfl

/-- Counterexample for C7 (claim: the event carrying a dequeued patch is
named `"telemetry"`): an iteration that dequeues a patch emits an event
named `"TelemetryEvent"`, which is not `"telemetry"`. -/
theorem telemetry_event_name_counterexample :
    (telemetry_step (some "patch")).1 = "TelemetryEvent"
    ∧ (telemetry_step (some "patch")).1 ≠ "telemetry" := by
  constructor
  · rfl
  · decide

/-- C7 as amended: an iteration of the consumer loop that dequeues a patch
within the bounded wait emits an event named `"TelemetryEvent"` (not
`"telemetry"`) carrying the serialized patch; an iteration whose bounded
wait times out emits a `"heartbeat"` event with empty payload; hence in any
run, an idle (timed-out) iteration contributes a heartbeat event positioned
before whatever telemetry events follow it. -/
theorem telemetry_loop_amended :
    (∀ m, telemetry_step (some m) = ("TelemetryEvent", m))
    ∧ telemetry_step none = ("heartbeat", "")
    ∧ ∀ pre post, telemetry_run (pre ++ none :: post)
        = telemetry_run pre ++ ("heartbeat", "") :: telemetry_run post := by
  refine ⟨fun m => rfl, rfl, fun pre post => ?_⟩
  simp [telemetry_run, telemetry_step]

/-- C10: the cooperative-queue processor renders with the single renderer
supplied at construction only — its emitted patches are independent of the
`renderer_filters` list (which no method reads), and the start-time patch
payload is exactly what `self.renderer.render_complete_span` returned. -/
theorem fh_filters_never_consulted (fst : FHState)
    (f₁ f₂ : List ((MSpan → Except String Bool) × Renderer)) (loop : Bool)
    (q : List MPatch) (span : MSpan) (pc : Option CtxSpan) (frag : Html) :
    cbQueue (fh_on_start { fst with renderer_filters := f₁ } loop q span pc)
      = cbQueue (fh_on_start { fst with renderer_filters := f₂ } loop q span pc)
    ∧ cbQueue (fh_on_end { fst with renderer_filters := f₁ } loop q span)
      = cbQueue (fh_on_end { fst with renderer_filters := f₂ } loop q span)
    ∧ (fst.renderer.render_complete_span span s!"span-children-{span.span_id}"
          (resolveParentId pc span).isNone = .ok frag →
        cbQueue (fh_on_start fst true q span pc)
          = q ++ [⟨"beforeend", (startPlacement fst.container_id pc span).2.1, frag⟩]) := by
  refine ⟨?_, ?_, ?_⟩
  · unfold fh_on_start fh_on_start_body startPlacement
    dsimp only
    cases hp : resolveParentId pc span with
    | none =>
      simp only [hp, Option.isNone_none]
      cases hr : fst.renderer.render_complete_span span
          s!"span-children-{span.span_id}" true <;> simp [hr, cbQueue]
    | some pid =>
      simp only [hp, Option.isNone_some]
      cases hr : fst.renderer.render_complete_span span
          s!"span-children-{span.span_id}" false <;> simp [hr, cbQueue]
  · unfold fh_on_end fh_on_end_body
    dsimp only
    cases hh : fst.renderer.render_header span with
    | error e => simp [hh, cbQueue]
    | ok uh =>
      cases ha : fst.renderer.render_attributes span with
      | error e => simp [hh, ha, cbQueue]
      | ok ua =>
        cases he : fst.renderer.render_events span with
        | error e => simp [hh, ha, he, cbQueue]
        | ok ue => simp [hh, ha, he, cbQueue]
  · intro hr
    unfold fh_on_start fh_on_start_body startPlacement
    dsimp only
    cases hp : resolveParentId pc span with
    | none =>
      rw [hp] at hr
      simp only [Option.isNone_none] at hr
      simp [hp, hr, cbQueue, queue_update]
    | some pid =>
      rw [hp] at hr
      simp only [Option.isNone_some] at hr
      simp [hp, hr, cbQueue, queue_update]

/-- Witness for C10: the start patch for a root span on the cooperative
processor carries exactly the construction renderer's fragment. -/
theorem fh_filters_never_consulted_witness :
    cbQueue (fh_on_start fhW true [] cexSpan none)
      = [⟨"beforeend", "telemetry-container",
          default_render_complete_span [] cexSpan "span-children-7" true⟩] := by
  have h := fh_filters_never_consulted fhW [] [] true [] cexSpan none
    (default_render_complete_span [] cexSpan "span-children-7" true)
  exact h.2.2 rfl
